import Mathlib

/-!
# Menu controller of the E-Ink task (src/eink_task.c, src/eink_task.h)

Shallow embedding of `eInk_task`: the start-up sequence, the body of the
`for(;;)` loop and the `switch(eink_cmd_data)` dispatcher.

* The controller state is the pair of variables the loop reads and writes:
  the global flag `led_brightness` and the local `uint8_t page_number`.
* Calls to the external collaborators (GUI page routines, the display driver,
  the RTOS delay, the LED command queue) are recorded, in program order, in a
  list of `Action`s.  What those collaborators do internally is not modelled.
* `uint8_t` values are natural numbers reduced modulo 256 where the C code
  stores into them.
* Indexing `ledPageArray` outside its bounds is undefined behaviour in C; the
  embedding returns `none` there.
* A received `eink_command_t` is a natural number, so that values outside the
  four enumerators (the `default` branch) are covered.
* `led_brightness` is a global defined outside eink_task.c.  The embedding
  follows `eInk_task` alone: the flag changes only where `eInk_task` assigns
  it, and its value when the task starts is an input of `eInk_task`;
  `led_brightness_at_start` gives the value the specification fixes for it.
-/

namespace EInk

/-! ## Data model -/

/-- The page routines defined in eink_task.c (each paints one screen into the
emWin frame buffer).  `clear_screen` is never called by `eInk_task`. -/
inductive Screen where
  | show_startup_screen
  | show_instructions_screen
  | show_led_on
  | show_led_off
  | show_led_brightness
  deriving DecidableEq, Repr

/-- The two update modes `eInk_task` passes to `mtb_e2271cs021_show_frame`. -/
inductive UpdateMode where
  | MTB_E2271CS021_FULL_4STAGE
  | MTB_E2271CS021_FULL_2STAGE
  deriving DecidableEq, Repr

/-- The two values `eInk_task` stores in `led_cmd_data.command`.  The
enumeration itself is declared in led_task.h, not in eink_task.c or
eink_task.h; only the two names used here are needed, and they are taken to be
distinct. -/
inductive LedCommand where
  | LED_TURN_ON
  | LED_TURN_OFF
  deriving DecidableEq, Repr

/-- One call made by `eInk_task` to an external collaborator. -/
inductive Action where
  /-- Call `cyhal_spi_init(&spi, ...)`. -/
  | cyhal_spi_init
  /-- Call `cyhal_spi_set_frequency(&spi, SPI_BAUD_RATE_HZ)`. -/
  | cyhal_spi_set_frequency (hz : Nat)
  /-- Call `mtb_e2271cs021_init(&pins, &spi)`; its result is not inspected. -/
  | mtb_e2271cs021_init
  /-- Call `mtb_e2271cs021_set_temp_factor(AMBIENT_TEMPERATURE_C)`. -/
  | mtb_e2271cs021_set_temp_factor (deg : Nat)
  /-- Call `GUI_Init()`. -/
  | GUI_Init
  /-- A call of a page routine, directly or through `ledPageArray`. -/
  | render (f : Screen)
  /-- Call `mtb_e2271cs021_show_frame(previous_frame, current_frame, mode, true)`. -/
  | show_frame (mode : UpdateMode)
  /-- Call `vTaskDelay(ticks)`. -/
  | vTaskDelay (ticks : Nat)
  /-- Call `xQueueSendToBack(led_command_data_q, &led_cmd_data, 0u)` with the
  given value in `led_cmd_data.command`. -/
  | xQueueSendToBack (cmd : LedCommand)
  deriving DecidableEq, Repr

/-- The variables the event loop reads and writes. -/
structure State where
  /-- The global `bool led_brightness`: true while the brightness page is up. -/
  led_brightness : Bool
  /-- The local `uint8_t page_number`. -/
  page_number : Nat
  deriving DecidableEq, Repr

/-! ## Constants -/

def DELAY_AFTER_STARTUP_SCREEN_MS : Nat := 2000
def AMBIENT_TEMPERATURE_C : Nat := 20
def SPI_BAUD_RATE_HZ : Nat := 20000000

/-- Enumerators of `eink_command_t` (eink_task.h), in declaration order. -/
def EINK_BTN0 : Nat := 0
def EINK_BTN1 : Nat := 1
def EINK_RIGHT : Nat := 2
def EINK_LEFT : Nat := 3

/-- Array of menu page functions. -/
def ledPageArray : List Screen :=
  [Screen.show_led_on, Screen.show_led_off, Screen.show_led_brightness]

/-- The `uint8_t num_of_demo_pages = sizeof(ledPageArray)/sizeof(ledPageArray[0])`. -/
def num_of_demo_pages : Nat := ledPageArray.length % 256

/-! ## The dispatcher -/

/-- The statement pair
`(*ledPageArray[page_number])(); mtb_e2271cs021_show_frame(..., mode, true);`.
Fails when the index is outside the array. -/
def show_page (page_number : Nat) (mode : UpdateMode) : Option (List Action) :=
  match ledPageArray.get? page_number with
  | some f => some [Action.render f, Action.show_frame mode]
  | none => none

/-- The `switch(eink_cmd_data)` statement of the event loop, for a received
command value `cmd` in state `s`.  Returns the next state and the calls made. -/
def process_command (cmd : Nat) (s : State) : Option (State × List Action) :=
  if cmd = EINK_BTN0 then
    -- Go back to the menu page from brightness page
    if s.led_brightness then
      match show_page s.page_number UpdateMode.MTB_E2271CS021_FULL_4STAGE with
      | some acts => some ({ s with led_brightness := false }, acts)
      | none => none
    else some (s, [])
  else if cmd = EINK_BTN1 then
    -- Act accordingly to the selected option
    if !s.led_brightness then
      if s.page_number = 0 then
        some (s, [Action.xQueueSendToBack LedCommand.LED_TURN_ON])
      else if s.page_number = 1 then
        some (s, [Action.xQueueSendToBack LedCommand.LED_TURN_OFF])
      else if s.page_number = 2 then
        some ({ s with led_brightness := true },
          [Action.render Screen.show_instructions_screen,
           Action.show_frame UpdateMode.MTB_E2271CS021_FULL_4STAGE])
      else some (s, [])
    else some (s, [])
  else if cmd = EINK_RIGHT then
    -- switch to next option
    if !s.led_brightness then
      let page_number := ((s.page_number + 1) % num_of_demo_pages) % 256
      match show_page page_number UpdateMode.MTB_E2271CS021_FULL_2STAGE with
      | some acts => some ({ s with page_number := page_number }, acts)
      | none => none
    else some (s, [])
  else if cmd = EINK_LEFT then
    -- switch to previous option
    if !s.led_brightness then
      let page_number := ((s.page_number + num_of_demo_pages - 1) % num_of_demo_pages) % 256
      match show_page page_number UpdateMode.MTB_E2271CS021_FULL_2STAGE with
      | some acts => some ({ s with page_number := page_number }, acts)
      | none => none
    else some (s, [])
  else
    -- Invalid command
    some (s, [])

/-- One iteration of the `for(;;)` loop.  `rx = some cmd` when `xQueueReceive`
returned `pdTRUE` with `cmd` in `eink_cmd_data`; `rx = none` when it timed
out. -/
def loop_body (rx : Option Nat) (s : State) : Option (State × List Action) :=
  match rx with
  | some cmd => process_command cmd s
  | none => some (s, [])

/-- Finitely many iterations of the `for(;;)` loop, one per entry of `rxs`;
the calls of all iterations are concatenated in order. -/
def event_loop : List (Option Nat) → State → Option (State × List Action)
  | [], s => some (s, [])
  | rx :: rest, s =>
    match loop_body rx s with
    | none => none
    | some (s1, a1) =>
      match event_loop rest s1 with
      | none => none
      | some (s2, a2) => some (s2, a1 ++ a2)

/-! ## Start-up -/

/-- The part of `eInk_task` from `show_startup_screen()` up to the first
`xQueueReceive`.  `led_brightness` is a global defined outside eink_task.c and
not written here, so its value on entry, `lb0`, is an input. -/
def startup (lb0 : Bool) : Option (State × List Action) :=
  let page_number := 0
  match show_page page_number UpdateMode.MTB_E2271CS021_FULL_4STAGE with
  | some acts =>
    some ({ led_brightness := lb0, page_number := page_number },
      [Action.render Screen.show_startup_screen,
       Action.show_frame UpdateMode.MTB_E2271CS021_FULL_4STAGE,
       Action.vTaskDelay DELAY_AFTER_STARTUP_SCREEN_MS] ++ acts)
  | none => none

/-- The whole of `eInk_task`, run until `rxs.length` loop iterations are done.
`spi_init_ok` and `set_frequency_ok` say whether the two HAL calls returned
`CY_RSLT_SUCCESS`; when one does not, the function falls through without
touching the display. -/
def eInk_task (spi_init_ok set_frequency_ok lb0 : Bool) (rxs : List (Option Nat)) :
    Option (State × List Action) :=
  let s0 : State := { led_brightness := lb0, page_number := 0 }
  if spi_init_ok then
    if set_frequency_ok then
      match startup lb0 with
      | none => none
      | some (s1, a1) =>
        match event_loop rxs s1 with
        | none => none
        | some (s2, a2) =>
          some (s2,
            [Action.cyhal_spi_init, Action.cyhal_spi_set_frequency SPI_BAUD_RATE_HZ,
             Action.mtb_e2271cs021_init,
             Action.mtb_e2271cs021_set_temp_factor AMBIENT_TEMPERATURE_C,
             Action.GUI_Init] ++ a1 ++ a2)
    else some (s0, [Action.cyhal_spi_init, Action.cyhal_spi_set_frequency SPI_BAUD_RATE_HZ])
  else some (s0, [Action.cyhal_spi_init])

/-! ## Observations used to state the properties -/

/-- The UI mode of the specification, read off the flag. -/
inductive Mode where
  | MainMenu
  | BrightnessSubmenu
  deriving DecidableEq, Repr

/-- Mode of a state: `BrightnessSubmenu` exactly when `led_brightness` is set. -/
def State.mode (s : State) : Mode :=
  if s.led_brightness then Mode.BrightnessSubmenu else Mode.MainMenu

/-- The state `MainMenu(i)` of the specification. -/
def MainMenu (i : Nat) : State := { led_brightness := false, page_number := i }

/-- The state `BrightnessSubmenu` with frozen page index `p`. -/
def BrightnessSubmenu (p : Nat) : State := { led_brightness := true, page_number := p }

/-- Contents of the frame buffer and of the panel, as far as the recorded
calls determine them: a page routine paints the frame buffer, `show_frame`
puts the frame buffer on the panel. -/
structure Display where
  current_frame : Option Screen
  panel : Option Screen
  deriving DecidableEq, Repr

/-- Effect of one call on the display. -/
def Display.apply (d : Display) : Action → Display
  | Action.render f => { d with current_frame := some f }
  | Action.show_frame _ => { d with panel := d.current_frame }
  | _ => d

/-- The page on the panel after the calls `acts`, starting from a blank
display: the most recently rendered-and-committed page. -/
def displayed (acts : List Action) : Option Screen :=
  (acts.foldl Display.apply { current_frame := none, panel := none }).panel

/-- The page that matches a state: the instructions page in the submenu, the
page-table routine at `page_number` in the main menu. -/
def expected_screen (s : State) : Option Screen :=
  if s.led_brightness then some Screen.show_instructions_screen
  else ledPageArray.get? s.page_number

/-- The render and commit calls among `acts`, in order. -/
def display_calls (acts : List Action) : List Action :=
  acts.filter fun a =>
    match a with
    | Action.render _ => true
    | Action.show_frame _ => true
    | _ => false

/-- The LED-queue sends among `acts`, in order. -/
def led_sends (acts : List Action) : List LedCommand :=
  acts.filterMap fun a =>
    match a with
    | Action.xQueueSendToBack c => some c
    | _ => none

/-- Modelled from the spec: the value of the global `led_brightness` when
`eInk_task` starts.  The variable is defined outside eink_task.c and
eink_task.h, and `eInk_task` assigns it only inside its loop.  The
specification has the UI mode "created at controller initialization as
`MainMenu`" and "never externally set", so the flag is clear at start. -/
def led_brightness_at_start : Bool := false

/-- Invariant of the states the event loop can reach: the page index is inside
the page table, and the brightness page is only ever up over index 2. -/
def Inv (s : State) : Prop :=
  s.page_number < 3 ∧ (s.led_brightness = true → s.page_number = 2)

/-- The three shapes the calls of one loop iteration can take. -/
def StepShape (a : List Action) : Prop :=
  a = [] ∨ (∃ c, a = [Action.xQueueSendToBack c]) ∨
    (∃ f m, a = [Action.render f, Action.show_frame m])

/-! ## Auxiliary lemmas -/

theorem displayed_append_send (pre : List Action) (c : LedCommand) :
    displayed (pre ++ [Action.xQueueSendToBack c]) = displayed pre := by
  simp [displayed, List.foldl_append, Display.apply]

theorem displayed_append_page (pre : List Action) (f : Screen) (m : UpdateMode) :
    displayed (pre ++ [Action.render f, Action.show_frame m]) = some f := by
  simp [displayed, List.foldl_append, Display.apply]

theorem display_calls_of_shape (a : List Action) (h : StepShape a) :
    display_calls a = [] ∨ ∃ f m, display_calls a = [Action.render f, Action.show_frame m] := by
  rcases h with h | ⟨c, h⟩ | ⟨f, m, h⟩
  · subst h; exact Or.inl rfl
  · subst h; exact Or.inl rfl
  · subst h; exact Or.inr ⟨f, m, rfl⟩

theorem show_page_shape (p : Nat) (m : UpdateMode) (acts : List Action)
    (h : show_page p m = some acts) :
    ∃ f, ledPageArray.get? p = some f ∧ acts = [Action.render f, Action.show_frame m] := by
  unfold show_page at h
  cases hf : ledPageArray.get? p with
  | none => rw [hf] at h; cases h
  | some f =>
    rw [hf] at h
    injection h with h
    exact ⟨f, rfl, h.symm⟩

/-- A command value outside the four enumerators takes the `default` branch. -/
theorem process_command_other (n : Nat) (s : State) :
    process_command (n + 4) s = some (s, []) := by
  simp [process_command, EINK_BTN0, EINK_BTN1, EINK_RIGHT, EINK_LEFT]

/-- One loop iteration from a state satisfying the invariant returns, keeps
the invariant, makes calls of one of the three shapes, and keeps the panel in
step with the state. -/
theorem loop_body_spec (rx : Option Nat) (s : State) (h : Inv s) :
    ∃ s1 a, loop_body rx s = some (s1, a) ∧ Inv s1 ∧ StepShape a ∧
      ∀ pre, displayed pre = expected_screen s →
        displayed (pre ++ a) = expected_screen s1 := by
  obtain ⟨lb, p⟩ := s
  obtain ⟨h1, h2⟩ := h
  simp only at h1 h2
  cases rx with
  | none => exact ⟨_, _, rfl, ⟨h1, h2⟩, Or.inl rfl, fun pre hp => by simpa using hp⟩
  | some cmd =>
    rcases cmd with _ | _ | _ | _ | n
    · cases lb
      · exact ⟨_, _, rfl, ⟨h1, h2⟩, Or.inl rfl, fun pre hp => by simpa using hp⟩
      · have hp2 : p = 2 := h2 rfl
        subst hp2
        exact ⟨_, _, rfl, ⟨by decide, by simp⟩, Or.inr (Or.inr ⟨_, _, rfl⟩),
          fun pre _ => by rw [displayed_append_page]; rfl⟩
    · cases lb
      · interval_cases p
        · exact ⟨_, _, rfl, ⟨by decide, by simp⟩, Or.inr (Or.inl ⟨_, rfl⟩),
            fun pre hp => by rw [displayed_append_send]; exact hp⟩
        · exact ⟨_, _, rfl, ⟨by decide, by simp⟩, Or.inr (Or.inl ⟨_, rfl⟩),
            fun pre hp => by rw [displayed_append_send]; exact hp⟩
        · exact ⟨_, _, rfl, ⟨by decide, by simp⟩, Or.inr (Or.inr ⟨_, _, rfl⟩),
            fun pre _ => by rw [displayed_append_page]; rfl⟩
      · exact ⟨_, _, rfl, ⟨h1, h2⟩, Or.inl rfl, fun pre hp => by simpa using hp⟩
    · cases lb
      · interval_cases p <;>
          exact ⟨_, _, rfl, ⟨by decide, by simp⟩, Or.inr (Or.inr ⟨_, _, rfl⟩),
            fun pre _ => by rw [displayed_append_page]; rfl⟩
      · exact ⟨_, _, rfl, ⟨h1, h2⟩, Or.inl rfl, fun pre hp => by simpa using hp⟩
    · cases lb
      · interval_cases p <;>
          exact ⟨_, _, rfl, ⟨by decide, by simp⟩, Or.inr (Or.inr ⟨_, _, rfl⟩),
            fun pre _ => by rw [displayed_append_page]; rfl⟩
      · exact ⟨_, _, rfl, ⟨h1, h2⟩, Or.inl rfl, fun pre hp => by simpa using hp⟩
    · exact ⟨_, _, process_command_other n _, ⟨h1, h2⟩, Or.inl rfl,
        fun pre hp => by simpa using hp⟩

/-- Any number of loop iterations from a state satisfying the invariant
return, keep the invariant and keep the panel in step with the state. -/
theorem event_loop_spec (rxs : List (Option Nat)) :
    ∀ (s : State) (pre : List Action), Inv s → displayed pre = expected_screen s →
      ∃ s1 a, event_loop rxs s = some (s1, a) ∧ Inv s1 ∧
        displayed (pre ++ a) = expected_screen s1 := by
  induction rxs with
  | nil =>
    intro s pre hs hd
    exact ⟨s, [], rfl, hs, by simpa using hd⟩
  | cons rx rest ih =>
    intro s pre hs hd
    obtain ⟨s1, a1, e1, hs1, _, hd1⟩ := loop_body_spec rx s hs
    obtain ⟨s2, a2, e2, hs2, hd2⟩ := ih s1 (pre ++ a1) hs1 (hd1 pre hd)
    refine ⟨s2, a1 ++ a2, ?_, hs2, ?_⟩
    · simp [event_loop, e1, e2]
    · rw [← List.append_assoc]; exact hd2

/-! ## The properties -/

/-- C1: for every finite sequence of loop iterations (any command values,
time-outs included) run from the initial state `MainMenu 0`, the loop returns
and the page index of the state reached lies in `[0, num_of_demo_pages)`, with
`num_of_demo_pages = 3`.  Every state reached along a sequence is the state
reached at the end of one of its prefixes, so this covers all of them. -/
theorem C1_page_number_in_range (rxs : List (Option Nat)) :
    ∃ s acts, event_loop rxs (MainMenu 0) = some (s, acts) ∧
      0 ≤ s.page_number ∧ s.page_number < num_of_demo_pages ∧ num_of_demo_pages = 3 := by
  obtain ⟨s, a, e, hs, _⟩ :=
    event_loop_spec rxs (MainMenu 0) [Action.render Screen.show_led_on,
      Action.show_frame UpdateMode.MTB_E2271CS021_FULL_4STAGE] ⟨by decide, by simp [MainMenu]⟩ rfl
  exact ⟨s, a, e, Nat.zero_le _, hs.1, rfl⟩

/-- C2: for every page index `i` in `[0, 3)`, from `MainMenu i` the commands
Next then Previous end in `MainMenu i`, and so do Previous then Next, the wrap
at `i = 2` and `i = 0` included. -/
theorem C2_next_previous_inverse (i : Nat) (h : i < num_of_demo_pages) :
    (event_loop [some EINK_RIGHT, some EINK_LEFT] (MainMenu i)).map Prod.fst
        = some (MainMenu i) ∧
    (event_loop [some EINK_LEFT, some EINK_RIGHT] (MainMenu i)).map Prod.fst
        = some (MainMenu i) := by
  have h3 : i < 3 := h
  interval_cases i <;> exact ⟨rfl, rfl⟩

theorem C2_next_previous_inverse_witness :
    2 < num_of_demo_pages ∧
    (event_loop [some EINK_RIGHT, some EINK_LEFT] (MainMenu 2)).map Prod.fst
        = some (MainMenu 2) ∧
    (event_loop [some EINK_LEFT, some EINK_RIGHT] (MainMenu 2)).map Prod.fst
        = some (MainMenu 2) :=
  ⟨by decide, C2_next_previous_inverse 2 (by decide)⟩

/-- C3: for every page index `i` in `[0, 3)`, Next in `MainMenu i` gives
`MainMenu ((i + 1) % 3)`, calls the page routine stored at the new index and
commits it; and from index 0 three Next commands give the indices 1, 2, 0. -/
theorem C3_next_advances_and_renders_new_page (i : Nat) (h : i < num_of_demo_pages) :
    (∃ f, ledPageArray.get? ((i + 1) % 3) = some f ∧
      process_command EINK_RIGHT (MainMenu i) =
        some (MainMenu ((i + 1) % 3),
          [Action.render f, Action.show_frame UpdateMode.MTB_E2271CS021_FULL_2STAGE])) ∧
    (event_loop [some EINK_RIGHT] (MainMenu 0)).map Prod.fst = some (MainMenu 1) ∧
    (event_loop [some EINK_RIGHT, some EINK_RIGHT] (MainMenu 0)).map Prod.fst
        = some (MainMenu 2) ∧
    (event_loop [some EINK_RIGHT, some EINK_RIGHT, some EINK_RIGHT] (MainMenu 0)).map Prod.fst
        = some (MainMenu 0) := by
  have h3 : i < 3 := h
  refine ⟨?_, rfl, rfl, rfl⟩
  interval_cases i <;> exact ⟨_, rfl, rfl⟩

theorem C3_next_advances_and_renders_new_page_witness :
    2 < num_of_demo_pages ∧
    ∃ f, ledPageArray.get? ((2 + 1) % 3) = some f ∧
      process_command EINK_RIGHT (MainMenu 2) =
        some (MainMenu ((2 + 1) % 3),
          [Action.render f, Action.show_frame UpdateMode.MTB_E2271CS021_FULL_2STAGE]) :=
  ⟨by decide, (C3_next_advances_and_renders_new_page 2 (by decide)).1⟩

/-- C4: Confirm in `MainMenu 2` enters the brightness submenu and renders and
commits the instructions page; Back right after returns to `MainMenu 2` and
renders and commits the page routine of index 2 again.  For every submenu
state with frozen index `p` in `[0, 3)`, Back gives `MainMenu p`, rendering
and committing the page routine stored at `p`. -/
theorem C4_submenu_round_trip (p : Nat) (h : p < num_of_demo_pages) :
    process_command EINK_BTN1 (MainMenu 2) =
      some (BrightnessSubmenu 2,
        [Action.render Screen.show_instructions_screen,
         Action.show_frame UpdateMode.MTB_E2271CS021_FULL_4STAGE]) ∧
    (BrightnessSubmenu 2).mode = Mode.BrightnessSubmenu ∧
    process_command EINK_BTN0 (BrightnessSubmenu 2) =
      some (MainMenu 2,
        [Action.render Screen.show_led_brightness,
         Action.show_frame UpdateMode.MTB_E2271CS021_FULL_4STAGE]) ∧
    (MainMenu 2).mode = Mode.MainMenu ∧
    (∃ f, ledPageArray.get? p = some f ∧
      process_command EINK_BTN0 (BrightnessSubmenu p) =
        some (MainMenu p,
          [Action.render f, Action.show_frame UpdateMode.MTB_E2271CS021_FULL_4STAGE])) := by
  have h3 : p < 3 := h
  refine ⟨rfl, rfl, rfl, rfl, ?_⟩
  interval_cases p <;> exact ⟨_, rfl, rfl⟩

theorem C4_submenu_round_trip_witness :
    1 < num_of_demo_pages ∧
    ∃ f, ledPageArray.get? 1 = some f ∧
      process_command EINK_BTN0 (BrightnessSubmenu 1) =
        some (MainMenu 1,
          [Action.render f, Action.show_frame UpdateMode.MTB_E2271CS021_FULL_4STAGE]) :=
  ⟨by decide, (C4_submenu_round_trip 1 (by decide)).2.2.2.2⟩

/-- C5: Confirm in `MainMenu 0` makes exactly one call, the LED-queue send of
`LED_TURN_ON`, and Confirm in `MainMenu 1` makes exactly one call, the
LED-queue send of `LED_TURN_OFF`; in both cases the state (mode and page
index) is unchanged and nothing is rendered or committed. -/
theorem C5_confirm_led_on_off :
    process_command EINK_BTN1 (MainMenu 0) =
      some (MainMenu 0, [Action.xQueueSendToBack LedCommand.LED_TURN_ON]) ∧
    process_command EINK_BTN1 (MainMenu 1) =
      some (MainMenu 1, [Action.xQueueSendToBack LedCommand.LED_TURN_OFF]) ∧
    (MainMenu 0).mode = Mode.MainMenu ∧ (MainMenu 1).mode = Mode.MainMenu :=
  ⟨rfl, rfl, rfl, rfl⟩

/-- C6: in every state whose mode is the brightness submenu, every command
other than Back (Confirm, Next, Previous, and any other value) leaves the
state unchanged and makes no call at all. -/
theorem C6_submenu_ignores_all_but_back (s : State) (cmd : Nat)
    (hs : s.mode = Mode.BrightnessSubmenu) (hc : cmd ≠ EINK_BTN0) :
    process_command cmd s = some (s, []) := by
  obtain ⟨lb, p⟩ := s
  cases lb
  · simp [State.mode] at hs
  · simp [process_command, hc]

theorem C6_submenu_ignores_all_but_back_witness :
    (BrightnessSubmenu 2).mode = Mode.BrightnessSubmenu ∧ EINK_RIGHT ≠ EINK_BTN0 ∧
    process_command EINK_RIGHT (BrightnessSubmenu 2) = some (BrightnessSubmenu 2, []) :=
  ⟨rfl, by decide, C6_submenu_ignores_all_but_back (BrightnessSubmenu 2) EINK_RIGHT rfl (by decide)⟩

/-- C7: whenever processing a command in any state calls `show_frame` with
mode `m`, then `m` is `MTB_E2271CS021_FULL_4STAGE` if the command is Confirm or
Back, and `MTB_E2271CS021_FULL_2STAGE` if the command is Next or Previous. -/
theorem C7_refresh_mode_by_command (s s1 : State) (cmd : Nat) (acts : List Action)
    (m : UpdateMode) (h : process_command cmd s = some (s1, acts))
    (hm : Action.show_frame m ∈ acts) :
    ((cmd = EINK_BTN1 ∨ cmd = EINK_BTN0) → m = UpdateMode.MTB_E2271CS021_FULL_4STAGE) ∧
    ((cmd = EINK_RIGHT ∨ cmd = EINK_LEFT) → m = UpdateMode.MTB_E2271CS021_FULL_2STAGE) := by
  have key : ∀ (q : Nat) (m0 : UpdateMode) (t : State) (f : List Action → State),
      (match show_page q m0 with
        | some a => some (f a, a)
        | none => none) = some (t, acts) → m = m0 := by
    intro q m0 t f hq
    cases hsp : show_page q m0 with
    | none => rw [hsp] at hq; cases hq
    | some a =>
      rw [hsp] at hq
      obtain ⟨g, _, ha⟩ := show_page_shape q m0 a hsp
      simp only [Option.some.injEq, Prod.mk.injEq] at hq
      rw [← hq.2, ha] at hm
      simpa using hm
  obtain ⟨lb, p⟩ := s
  rcases cmd with _ | _ | _ | _ | n
  · refine ⟨fun _ => ?_, fun hc => ?_⟩
    · cases lb
      · simp [process_command, EINK_BTN0] at h
        rw [h.2] at hm; cases hm
      · simp only [process_command, EINK_BTN0] at h
        exact key p _ s1 (fun _ => _) h
    · rcases hc with hc | hc <;> cases hc
  · refine ⟨fun _ => ?_, fun hc => ?_⟩
    · cases lb
      · have hcases : acts = [Action.xQueueSendToBack LedCommand.LED_TURN_ON] ∨
            acts = [Action.xQueueSendToBack LedCommand.LED_TURN_OFF] ∨
            acts = [Action.render Screen.show_instructions_screen,
              Action.show_frame UpdateMode.MTB_E2271CS021_FULL_4STAGE] ∨ acts = [] := by
          simp [process_command, EINK_BTN0, EINK_BTN1] at h
          split_ifs at h <;> simp at h <;> simp [← h.2]
        rcases hcases with e | e | e | e <;> rw [e] at hm <;> simp at hm
        exact hm
      · simp [process_command, EINK_BTN0, EINK_BTN1] at h
        rw [h.2] at hm; cases hm
    · rcases hc with hc | hc <;> cases hc
  · refine ⟨fun hc => ?_, fun _ => ?_⟩
    · rcases hc with hc | hc <;> cases hc
    · cases lb
      · simp only [process_command, EINK_BTN0, EINK_BTN1, EINK_RIGHT] at h
        exact key _ _ s1 (fun _ => _) h
      · simp [process_command, EINK_BTN0, EINK_BTN1, EINK_RIGHT] at h
        rw [h.2] at hm; cases hm
  · refine ⟨fun hc => ?_, fun _ => ?_⟩
    · rcases hc with hc | hc <;> cases hc
    · cases lb
      · simp only [process_command, EINK_BTN0, EINK_BTN1, EINK_RIGHT, EINK_LEFT] at h
        exact key _ _ s1 (fun _ => _) h
      · simp [process_command, EINK_BTN0, EINK_BTN1, EINK_RIGHT, EINK_LEFT] at h
        rw [h.2] at hm; cases hm
  · rw [process_command_other] at h
    simp only [Option.some.injEq, Prod.mk.injEq] at h
    rw [← h.2] at hm; cases hm

theorem C7_refresh_mode_by_command_witness :
    process_command EINK_LEFT (MainMenu 0) =
      some (MainMenu 2,
        [Action.render Screen.show_led_brightness,
         Action.show_frame UpdateMode.MTB_E2271CS021_FULL_2STAGE]) ∧
    Action.show_frame UpdateMode.MTB_E2271CS021_FULL_2STAGE ∈
      [Action.render Screen.show_led_brightness,
       Action.show_frame UpdateMode.MTB_E2271CS021_FULL_2STAGE] ∧
    ((EINK_LEFT = EINK_BTN1 ∨ EINK_LEFT = EINK_BTN0) →
      UpdateMode.MTB_E2271CS021_FULL_2STAGE = UpdateMode.MTB_E2271CS021_FULL_4STAGE) ∧
    ((EINK_LEFT = EINK_RIGHT ∨ EINK_LEFT = EINK_LEFT) →
      UpdateMode.MTB_E2271CS021_FULL_2STAGE = UpdateMode.MTB_E2271CS021_FULL_2STAGE) :=
  ⟨rfl, by decide,
    C7_refresh_mode_by_command (MainMenu 0) (MainMenu 2) EINK_LEFT _
      UpdateMode.MTB_E2271CS021_FULL_2STAGE rfl (by decide)⟩

/-- C8: for every command value and every state whose page index lies in
`[0, num_of_demo_pages)`, processing the command returns a result; and for
every command value that is none of the four enumerators (in either mode), and
for Back in the main menu, the result is the unchanged state with no call made
(no render, no commit, no LED-queue send). -/
theorem C8_total_and_ignored_noop (cmd : Nat) (s : State)
    (h : s.page_number < num_of_demo_pages) :
    (∃ r, process_command cmd s = some r) ∧
    (((cmd ≠ EINK_BTN0 ∧ cmd ≠ EINK_BTN1 ∧ cmd ≠ EINK_RIGHT ∧ cmd ≠ EINK_LEFT) ∨
        (cmd = EINK_BTN0 ∧ s.mode = Mode.MainMenu)) →
      process_command cmd s = some (s, [])) := by
  obtain ⟨lb, p⟩ := s
  have h3 : p < 3 := h
  constructor
  · rcases cmd with _ | _ | _ | _ | n
    · cases lb
      · exact ⟨_, rfl⟩
      · interval_cases p <;> exact ⟨_, rfl⟩
    · cases lb
      · interval_cases p <;> exact ⟨_, rfl⟩
      · exact ⟨_, rfl⟩
    · cases lb
      · interval_cases p <;> exact ⟨_, rfl⟩
      · exact ⟨_, rfl⟩
    · cases lb
      · interval_cases p <;> exact ⟨_, rfl⟩
      · exact ⟨_, rfl⟩
    · exact ⟨_, process_command_other n _⟩
  · rintro (⟨c0, c1, c2, c3⟩ | ⟨c0, hm⟩)
    · simp [process_command, c0, c1, c2, c3]
    · cases lb
      · simp [process_command, c0]
      · simp [State.mode] at hm

theorem C8_total_and_ignored_noop_witness :
    (BrightnessSubmenu 1).page_number < num_of_demo_pages ∧
    (∃ r, process_command 7 (BrightnessSubmenu 1) = some r) ∧
    process_command 7 (BrightnessSubmenu 1) = some (BrightnessSubmenu 1, []) :=
  ⟨by decide, (C8_total_and_ignored_noop 7 (BrightnessSubmenu 1) (by decide)).1,
    (C8_total_and_ignored_noop 7 (BrightnessSubmenu 1) (by decide)).2
      (Or.inl ⟨by decide, by decide, by decide, by decide⟩)⟩

/-- C9: with both HAL calls successful and `led_brightness` clear when the
task starts, `eInk_task` reaches its first `xQueueReceive` in mode `MainMenu`
with page index 0 (the flag is still false there, `eInk_task` not having
written it), and the calls it has made are the driver bring-up followed by
exactly, in order: render the splash page, commit with `FULL_4STAGE`, delay
`DELAY_AFTER_STARTUP_SCREEN_MS` (2000), render `show_led_on` (page 0 of the
table), commit with `FULL_4STAGE`. -/
theorem C9_startup_sequence :
    eInk_task true true led_brightness_at_start [] =
      some (MainMenu 0,
        [Action.cyhal_spi_init, Action.cyhal_spi_set_frequency SPI_BAUD_RATE_HZ,
         Action.mtb_e2271cs021_init,
         Action.mtb_e2271cs021_set_temp_factor AMBIENT_TEMPERATURE_C,
         Action.GUI_Init] ++
        [Action.render Screen.show_startup_screen,
         Action.show_frame UpdateMode.MTB_E2271CS021_FULL_4STAGE,
         Action.vTaskDelay DELAY_AFTER_STARTUP_SCREEN_MS,
         Action.render Screen.show_led_on,
         Action.show_frame UpdateMode.MTB_E2271CS021_FULL_4STAGE]) ∧
    (MainMenu 0).mode = Mode.MainMenu ∧
    (MainMenu 0).page_number = 0 ∧
    (MainMenu 0).led_brightness = false ∧
    ledPageArray.get? 0 = some Screen.show_led_on ∧
    DELAY_AFTER_STARTUP_SCREEN_MS = 2000 :=
  ⟨rfl, rfl, rfl, rfl, rfl, rfl⟩

/-- C10: for every finite sequence of loop iterations run by `eInk_task` after
a successful bring-up with `led_brightness` clear, the task gets through them
and the page on the panel matches the state reached: in the main menu the
index is 0, 1 or 2 and the panel shows `show_led_on`, `show_led_off` or
`show_led_brightness` accordingly; in the brightness submenu the index is 2 and
the panel shows the instructions page.  From every such state, one more loop
iteration returns and either renders and commits nothing or makes exactly one
render call followed by exactly one commit. -/
theorem C10_displayed_page_consistency (rxs : List (Option Nat)) :
    ∃ s acts, eInk_task true true false rxs = some (s, acts) ∧
      displayed acts = expected_screen s ∧
      ((s.mode = Mode.MainMenu ∧
          ((s.page_number = 0 ∧ displayed acts = some Screen.show_led_on) ∨
           (s.page_number = 1 ∧ displayed acts = some Screen.show_led_off) ∨
           (s.page_number = 2 ∧ displayed acts = some Screen.show_led_brightness))) ∨
       (s.mode = Mode.BrightnessSubmenu ∧ s.page_number = 2 ∧
          displayed acts = some Screen.show_instructions_screen)) ∧
      ∀ rx, ∃ s1 a, loop_body rx s = some (s1, a) ∧
        (display_calls a = [] ∨
          ∃ f m, display_calls a = [Action.render f, Action.show_frame m]) := by
  obtain ⟨s, a, e, hs, hd⟩ :=
    event_loop_spec rxs (MainMenu 0)
      [Action.cyhal_spi_init, Action.cyhal_spi_set_frequency SPI_BAUD_RATE_HZ,
       Action.mtb_e2271cs021_init,
       Action.mtb_e2271cs021_set_temp_factor AMBIENT_TEMPERATURE_C,
       Action.GUI_Init,
       Action.render Screen.show_startup_screen,
       Action.show_frame UpdateMode.MTB_E2271CS021_FULL_4STAGE,
       Action.vTaskDelay DELAY_AFTER_STARTUP_SCREEN_MS,
       Action.render Screen.show_led_on,
       Action.show_frame UpdateMode.MTB_E2271CS021_FULL_4STAGE]
      ⟨by decide, by simp [MainMenu]⟩ rfl
  refine ⟨s, _, ?_, hd, ?_, ?_⟩
  · have e0 : event_loop rxs { led_brightness := false, page_number := 0 } = some (s, a) := e
    simp only [eInk_task, startup, show_page, ledPageArray, List.get?, if_true, e0]
    rfl
  · obtain ⟨lb, p⟩ := s
    obtain ⟨h1, h2⟩ := hs
    simp only at h1 h2
    cases lb
    · left
      refine ⟨rfl, ?_⟩
      interval_cases p
      · exact Or.inl ⟨rfl, hd⟩
      · exact Or.inr (Or.inl ⟨rfl, hd⟩)
      · exact Or.inr (Or.inr ⟨rfl, hd⟩)
    · right
      exact ⟨rfl, h2 rfl, hd⟩
  · intro rx
    obtain ⟨s1, a1, e1, _, hshape, _⟩ := loop_body_spec rx s hs
    exact ⟨s1, a1, e1, display_calls_of_shape a1 hshape⟩

end EInk
